import Mathlib

/-!
Shallow embedding of `src/app.py` (Google-Sheets text-to-speech pipeline).

The app reads a column of texts from a spreadsheet, synthesizes speech for
each non-empty data row via an HTTP API with a bounded rate-limit retry
loop, uploads the audio to S3 under a deterministic per-row key, and writes
the resulting public URL back to the sheet.

External effects (HTTP responses, S3 puts, sheet reads/writes, sleeps) are
modelled by oracles passed in as functions plus explicit traces of the
effects the code performs.  Python exceptions that the code does not catch
are modelled as an explicit exceptional outcome.
-/

namespace AudioUploader

/-- Python exceptions relevant to the embedded code paths:
`IndexError` from `error_message.split(" ")[-2]` on a short token list,
`TypeError` from `ord()` applied to a string whose length is not 1, and a
generic API/client exception from `open_by_key` (gspread). -/
inductive PyExc where
  | indexError
  | typeError
  | apiError
  deriving DecidableEq, Repr

/-- ASCII model of Python `str.upper` on one character: lowercase ASCII
letters are mapped to uppercase, every other character is unchanged
(the app only ever feeds ASCII column labels through this). -/
def pyUpperChar (c : Char) : Char :=
  if 'a' ≤ c ∧ c ≤ 'z' then Char.ofNat (c.toNat - 32) else c

/-- The function `column_letter_to_index` from `src/app.py` line 24-25:
`ord(letter.upper()) - ord('A') + 1`.  Python `ord` demands a string of
length exactly 1 and raises `TypeError` otherwise, modelled as `none`.
Note the code performs no letter check: any single character yields the
ord-based value (possibly zero or negative). -/
def column_letter_to_index (letter : String) : Option Int :=
  match letter.data with
  | [c] => some (((pyUpperChar c).toNat : Int) - 65 + 1)
  | _ => none

/-- All-decimal-digit parse of a nonempty character list (helper for the
model of Python `int`). -/
def decDigits (cs : List Char) : Option Nat :=
  if cs ≠ [] ∧ cs.all (fun c => decide ('0' ≤ c) && decide (c ≤ '9')) then
    some (cs.foldl (fun acc c => acc * 10 + (c.toNat - 48)) 0)
  else
    none

/-- Surrounding whitespace stripped from a character list, as Python
`int` does before parsing. -/
def pyStripChars (cs : List Char) : List Char :=
  ((cs.dropWhile Char.isWhitespace).reverse.dropWhile Char.isWhitespace).reverse

/-- Model of Python `int(s)` on a string: surrounding whitespace is
stripped, an optional sign is allowed before a nonempty run of decimal
digits, and anything else raises `ValueError`, modelled as `none`.
(Digit-grouping underscores, accepted by Python, are not modelled: the
messages this code parses are plain numerals.) -/
def pyInt (s : String) : Option Int :=
  match pyStripChars s.data with
  | '+' :: rest => (decDigits rest).map (fun n => (n : Int))
  | '-' :: rest => (decDigits rest).map (fun n => -(n : Int))
  | cs => (decDigits cs).map (fun n => (n : Int))

/-- Splitting a character list at every single space, keeping empty
pieces, exactly as Python `split(" ")` with an explicit separator does:
the result is never the empty list. -/
def splitSpaces : List Char → List (List Char)
  | [] => [[]]
  | c :: rest =>
    match splitSpaces rest with
    | [] => [[]]
    | t :: ts => if c = ' ' then [] :: t :: ts else (c :: t) :: ts

/-- Model of Python `msg.split(" ")`. -/
def pySplitSpace (msg : String) : List String :=
  (splitSpaces msg.data).map (fun l => String.mk l)

/-- The wait-time extraction at `src/app.py` line 54:
`int(error_message.split(" ")[-2])`.  Python `split(" ")` never returns an
empty list, and `[-2]` demands at least two tokens, raising `IndexError`
otherwise — an exception the surrounding `except ValueError` does NOT
catch.  A token list of length ≥ 2 indexes element `length - 2`; a failed
`int` parse is the caught `ValueError`, modelled as `Except.ok none`. -/
def extract_wait (msg : String) : Except PyExc (Option Int) :=
  let toks := pySplitSpace msg
  if 2 ≤ toks.length then
    Except.ok (pyInt (toks.getD (toks.length - 2) ""))
  else
    Except.error PyExc.indexError

/-- One HTTP response from the synthesis endpoint, as the code consumes
it: `response.status_code`, `response.content` (raw audio bytes on 200),
and `response.json().get("error", {}).get("message", "")` which the 429
branch reads (modelled as the already-extracted message string). -/
structure HttpResponse where
  status : Nat
  content : List Nat
  errorMessage : String
  deriving DecidableEq, Repr

/-- Effects performed during one call of `generate_and_upload_tts`:
how many HTTP POSTs were issued, the argument of each `time.sleep`, and
each S3 `put_object` as a (key, body) pair. -/
structure SynthTrace where
  httpCalls : Nat
  sleeps : List Int
  uploads : List (String × List Nat)
  deriving DecidableEq, Repr

/-- Outcome of `generate_and_upload_tts`: the returned URL, the failure
marker (`return None`), or an uncaught Python exception propagating out of
the function. -/
inductive TtsResult where
  | url (u : String)
  | failure
  | exc (e : PyExc)
  deriving DecidableEq, Repr

/-- The `max_retries=5` default at `src/app.py` line 28. -/
def max_retries : Nat := 5

/-- The S3 URL template at `src/app.py` line 45:
`https://{bucket}.s3.{region}.amazonaws.com/{key}`. -/
def s3Url (bucket region key : String) : String :=
  "https://" ++ bucket ++ ".s3." ++ region ++ ".amazonaws.com/" ++ key

/-- The body of the `for attempt in range(max_retries)` loop of
`generate_and_upload_tts` (`src/app.py` lines 39-66).  `resp` maps the
attempt counter to the HTTP response of that POST; `fuel` is the number of
loop iterations remaining.  On 200 the audio is uploaded and the URL
returned; on 429 the wait time is parsed — `IndexError` propagates
uncaught, a caught `ValueError` (unparseable token, or `time.sleep` of a
negative value) breaks out of the loop, and otherwise the code sleeps and
retries; any other status breaks.  Falling out of the loop returns `None`,
modelled as `TtsResult.failure`. -/
def ttsLoop (resp : Nat → HttpResponse) (bucket region file_name : String) :
    Nat → Nat → SynthTrace → SynthTrace × TtsResult
  | _, 0, tr => (tr, TtsResult.failure)
  | attempt, fuel + 1, tr =>
    let r := resp attempt
    let tr1 : SynthTrace := { tr with httpCalls := tr.httpCalls + 1 }
    if r.status = 200 then
      ({ tr1 with uploads := tr1.uploads ++ [(file_name, r.content)] },
        TtsResult.url (s3Url bucket region file_name))
    else if r.status = 429 then
      match extract_wait r.errorMessage with
      | Except.error e => (tr1, TtsResult.exc e)
      | Except.ok none => (tr1, TtsResult.failure)
      | Except.ok (some w) =>
        if w < 0 then (tr1, TtsResult.failure)
        else ttsLoop resp bucket region file_name (attempt + 1) fuel
          { tr1 with sleeps := tr1.sleeps ++ [w] }
    else
      (tr1, TtsResult.failure)

/-- The function `generate_and_upload_tts(text, s3_client, bucket_name,
file_name)` from `src/app.py` lines 28-66 with the default `max_retries=5`:
runs the retry loop from attempt 0 with an empty effect trace.  (The text
itself only flows into the POST payload, which the oracle `resp`
abstracts, so it does not appear as a parameter here.) -/
def generate_and_upload_tts (resp : Nat → HttpResponse)
    (bucket region file_name : String) : SynthTrace × TtsResult :=
  ttsLoop resp bucket region file_name 0 max_retries ⟨0, [], []⟩

/-- The per-row S3 key `f"tts_audio_row{row_num}.mp3"` from `src/app.py`
line 86. -/
def ttsFileName (row_num : Nat) : String :=
  "tts_audio_row" ++ toString row_num ++ ".mp3"

/-- The app never parses the sheet reference: the string entered by the
user flows verbatim from `st.text_input` into
`google_sheets_client.open_by_key(spreadsheet_id)` (`src/app.py` lines
79 and 104).  Reference resolution is therefore the identity. -/
def resolve_sheet_reference (ref : String) : String := ref

/-- Effects performed by the row loop of `process_google_sheet`:
the rows for which `generate_and_upload_tts` was invoked (in order), the
rows skipped with the empty-cell warning, the successful
`sheet.update_cell(row, col, url)` calls, the S3 objects uploaded, the
rows whose `update_cell` raised (caught and reported at line 96-97), and
all sleeps performed. -/
structure RunTrace where
  synthRows : List Nat
  skipped : List Nat
  writes : List (Nat × Int × String)
  uploads : List (String × List Nat)
  writeErrors : List Nat
  sleeps : List Int
  deriving DecidableEq, Repr

def emptyTrace : RunTrace := ⟨[], [], [], [], [], []⟩

/-- Outcome of one run of `process_google_sheet`: normal completion, or
an uncaught Python exception aborting the run (`atRow = 0` when it is
raised before the row loop starts). -/
inductive RunResult where
  | completed
  | aborted (e : PyExc) (atRow : Nat)
  deriving DecidableEq, Repr

/-- The external world of one run: HTTP responses indexed by
(row number, attempt counter), whether `sheet.update_cell` succeeds for a
given row, the spreadsheet backend (`open_by_key` composed with
`col_values`: `none` models an exception while opening the sheet, `some
cols` gives the cell texts of each column index), and the S3
bucket/region configuration. -/
structure Env where
  responses : Nat → Nat → HttpResponse
  writeOk : Nat → Bool
  openSheet : String → Option (Int → List String)
  bucket : String
  region : String

/-- The row loop of `process_google_sheet` (`src/app.py` lines 83-99):
`for row_num, text in enumerate(texts[1:], start=2)`.  A non-empty cell
triggers synthesis; a `TtsResult.exc` propagates and aborts the whole run
(there is no try/except around the `generate_and_upload_tts` call); a
`None` result silently moves on; a URL is written back with
`update_cell`, whose exceptions are caught and reported per row. -/
def processRows (env : Env) (target_column : Int) :
    List String → Nat → RunTrace → RunTrace × RunResult
  | [], _, tr => (tr, RunResult.completed)
  | text :: rest, row_num, tr =>
    if text = "" then
      processRows env target_column rest (row_num + 1)
        { tr with skipped := tr.skipped ++ [row_num] }
    else
      let st1 := generate_and_upload_tts (env.responses row_num)
        env.bucket env.region (ttsFileName row_num)
      let tr1 : RunTrace :=
        { tr with synthRows := tr.synthRows ++ [row_num],
                  uploads := tr.uploads ++ st1.1.uploads,
                  sleeps := tr.sleeps ++ st1.1.sleeps }
      match st1.2 with
      | TtsResult.exc e => (tr1, RunResult.aborted e row_num)
      | TtsResult.failure =>
        processRows env target_column rest (row_num + 1) tr1
      | TtsResult.url u =>
        if env.writeOk row_num then
          processRows env target_column rest (row_num + 1)
            { tr1 with writes := tr1.writes ++ [(row_num, target_column, u)] }
        else
          processRows env target_column rest (row_num + 1)
            { tr1 with writeErrors := tr1.writeErrors ++ [row_num] }

/-- The function `process_google_sheet(spreadsheet_id,
source_column_letter, target_column_letter)` from `src/app.py` lines
69-99: resolve the two
column letters (a `TypeError` from `ord` aborts before anything else),
open the sheet by the spreadsheet id used verbatim (a gspread exception
aborts before any row), read the source column including its header, and
run the row loop over `texts[1:]` starting at row number 2. -/
def process_google_sheet (env : Env)
    (spreadsheet_id source_column_letter target_column_letter : String) :
    RunTrace × RunResult :=
  match column_letter_to_index source_column_letter with
  | none => (emptyTrace, RunResult.aborted PyExc.typeError 0)
  | some source_column =>
    match column_letter_to_index target_column_letter with
    | none => (emptyTrace, RunResult.aborted PyExc.typeError 0)
    | some target_column =>
      match env.openSheet spreadsheet_id with
      | none => (emptyTrace, RunResult.aborted PyExc.apiError 0)
      | some cols =>
        let texts := cols source_column
        processRows env target_column (texts.drop 1) 2 emptyTrace

/-- Row numbers (counting from `n`) of the non-empty cells of a text
list: the rows for which the loop invokes synthesis. -/
def nonEmptyRows : List String → Nat → List Nat
  | [], _ => []
  | t :: rest, n =>
    if t = "" then nonEmptyRows rest (n + 1)
    else n :: nonEmptyRows rest (n + 1)

/-- Row numbers (counting from `n`) of the empty cells of a text list:
the rows the loop skips with a warning. -/
def emptyRows : List String → Nat → List Nat
  | [], _ => []
  | t :: rest, n =>
    if t = "" then n :: emptyRows rest (n + 1)
    else emptyRows rest (n + 1)

/-! Concrete environments used to exhibit runs of the pipeline. -/

/-- A synthesis endpoint that always answers 429 with the documented
"Retrying in 3 seconds" message. -/
def resp429 : Nat → HttpResponse := fun _ => ⟨429, [], "Retrying in 3 seconds"⟩

/-- A world whose backend cannot open any sheet (`open_by_key` raises). -/
def envNoSheet : Env :=
  ⟨fun _ _ => ⟨200, [], ""⟩, fun _ => true, fun _ => none, "bkt", "reg"⟩

/-- A world with the 5-cell source column of the spec's scenario
(1 header + data `["hello", "", "world", "foo"]`) and an always-succeeding
synthesis endpoint. -/
def env4 : Env :=
  ⟨fun _ _ => ⟨200, [1], ""⟩, fun _ => true,
    fun _ => some (fun _ => ["hdr", "hello", "", "world", "foo"]), "bkt", "reg"⟩

/-- A world where every synthesis attempt answers 429 with an empty error
message, over a column with data rows `["hello", "next"]`. -/
def env6 : Env :=
  ⟨fun _ _ => ⟨429, [], ""⟩, fun _ => true,
    fun _ => some (fun _ => ["hdr", "hello", "next"]), "bkt", "reg"⟩

/-- A world where row 2's synthesis answers 429 with an empty message
while every other row would succeed with 200, over a column with data
rows `["a", "b"]`. -/
def env7 : Env :=
  ⟨fun row _ => if row = 2 then ⟨429, [], ""⟩ else ⟨200, [1], ""⟩,
    fun _ => true, fun _ => some (fun _ => ["h", "a", "b"]), "bkt", "reg"⟩

/-- A world where every synthesis attempt fails with 500 and every sheet
write-back raises, over a column with data rows `["x", "y"]`. -/
def env7w : Env :=
  ⟨fun _ _ => ⟨500, [], ""⟩, fun _ => false,
    fun _ => some (fun _ => ["hdr", "x", "y"]), "bkt", "reg"⟩

/-- A world where synthesis succeeds with audio `[9]` but every sheet
write-back raises. -/
def env9 : Env :=
  ⟨fun _ _ => ⟨200, [9], ""⟩, fun _ => false,
    fun _ => some (fun _ => ["hdr", "x"]), "bkt", "reg"⟩

/-! Step lemmas for the retry loop and the row loop. -/

lemma ttsLoop_zero (resp : Nat → HttpResponse) (b r f : String) (a : Nat)
    (tr : SynthTrace) : ttsLoop resp b r f a 0 tr = (tr, TtsResult.failure) := by
  simp [ttsLoop]

lemma ttsLoop_200 (resp : Nat → HttpResponse) (b r f : String) (a fuel : Nat)
    (tr : SynthTrace) (h : (resp a).status = 200) :
    ttsLoop resp b r f a (fuel + 1) tr =
      ({ tr with httpCalls := tr.httpCalls + 1,
                 uploads := tr.uploads ++ [(f, (resp a).content)] },
        TtsResult.url (s3Url b r f)) := by
  simp [ttsLoop, h]

lemma ttsLoop_other (resp : Nat → HttpResponse) (b r f : String) (a fuel : Nat)
    (tr : SynthTrace) (h200 : ¬ (resp a).status = 200)
    (h429 : ¬ (resp a).status = 429) :
    ttsLoop resp b r f a (fuel + 1) tr =
      ({ tr with httpCalls := tr.httpCalls + 1 }, TtsResult.failure) := by
  simp [ttsLoop, h200, h429]

lemma ttsLoop_429_exc (resp : Nat → HttpResponse) (b r f : String)
    (a fuel : Nat) (tr : SynthTrace) (e : PyExc)
    (h : (resp a).status = 429)
    (hx : extract_wait (resp a).errorMessage = Except.error e) :
    ttsLoop resp b r f a (fuel + 1) tr =
      ({ tr with httpCalls := tr.httpCalls + 1 }, TtsResult.exc e) := by
  simp [ttsLoop, h, hx]

lemma ttsLoop_429_unparseable (resp : Nat → HttpResponse) (b r f : String)
    (a fuel : Nat) (tr : SynthTrace)
    (h : (resp a).status = 429)
    (hx : extract_wait (resp a).errorMessage = Except.ok none) :
    ttsLoop resp b r f a (fuel + 1) tr =
      ({ tr with httpCalls := tr.httpCalls + 1 }, TtsResult.failure) := by
  simp [ttsLoop, h, hx]

lemma ttsLoop_429_negative (resp : Nat → HttpResponse) (b r f : String)
    (a fuel : Nat) (tr : SynthTrace) (w : Int)
    (h : (resp a).status = 429)
    (hx : extract_wait (resp a).errorMessage = Except.ok (some w))
    (hw : w < 0) :
    ttsLoop resp b r f a (fuel + 1) tr =
      ({ tr with httpCalls := tr.httpCalls + 1 }, TtsResult.failure) := by
  simp [ttsLoop, h, hx, hw]

lemma ttsLoop_429_wait (resp : Nat → HttpResponse) (b r f : String)
    (a fuel : Nat) (tr : SynthTrace) (w : Int)
    (h : (resp a).status = 429)
    (hx : extract_wait (resp a).errorMessage = Except.ok (some w))
    (hw : ¬ w < 0) :
    ttsLoop resp b r f a (fuel + 1) tr =
      ttsLoop resp b r f (a + 1) fuel
        { tr with httpCalls := tr.httpCalls + 1, sleeps := tr.sleeps ++ [w] } := by
  simp [ttsLoop, h, hx, hw]

lemma processRows_nil (env : Env) (tc : Int) (n : Nat) (tr : RunTrace) :
    processRows env tc [] n tr = (tr, RunResult.completed) := by
  simp [processRows]

lemma processRows_empty_cell (env : Env) (tc : Int) (t : String)
    (rest : List String) (n : Nat) (tr : RunTrace) (ht : t = "") :
    processRows env tc (t :: rest) n tr =
      processRows env tc rest (n + 1) { tr with skipped := tr.skipped ++ [n] } := by
  simp [processRows, ht]

lemma processRows_exc (env : Env) (tc : Int) (t : String)
    (rest : List String) (n : Nat) (tr : RunTrace) (str : SynthTrace) (e : PyExc)
    (ht : ¬ t = "")
    (hs : generate_and_upload_tts (env.responses n) env.bucket env.region
      (ttsFileName n) = (str, TtsResult.exc e)) :
    processRows env tc (t :: rest) n tr =
      ({ tr with synthRows := tr.synthRows ++ [n],
                 uploads := tr.uploads ++ str.uploads,
                 sleeps := tr.sleeps ++ str.sleeps },
        RunResult.aborted e n) := by
  simp [processRows, ht, hs]

lemma processRows_failure (env : Env) (tc : Int) (t : String)
    (rest : List String) (n : Nat) (tr : RunTrace) (str : SynthTrace)
    (ht : ¬ t = "")
    (hs : generate_and_upload_tts (env.responses n) env.bucket env.region
      (ttsFileName n) = (str, TtsResult.failure)) :
    processRows env tc (t :: rest) n tr =
      processRows env tc rest (n + 1)
        { tr with synthRows := tr.synthRows ++ [n],
                  uploads := tr.uploads ++ str.uploads,
                  sleeps := tr.sleeps ++ str.sleeps } := by
  simp [processRows, ht, hs]

lemma processRows_url_write_ok (env : Env) (tc : Int) (t : String)
    (rest : List String) (n : Nat) (tr : RunTrace) (str : SynthTrace) (u : String)
    (ht : ¬ t = "")
    (hs : generate_and_upload_tts (env.responses n) env.bucket env.region
      (ttsFileName n) = (str, TtsResult.url u))
    (hw : env.writeOk n = true) :
    processRows env tc (t :: rest) n tr =
      processRows env tc rest (n + 1)
        { tr with synthRows := tr.synthRows ++ [n],
                  uploads := tr.uploads ++ str.uploads,
                  sleeps := tr.sleeps ++ str.sleeps,
                  writes := tr.writes ++ [(n, tc, u)] } := by
  simp [processRows, ht, hs, hw]

lemma processRows_url_write_fails (env : Env) (tc : Int) (t : String)
    (rest : List String) (n : Nat) (tr : RunTrace) (str : SynthTrace) (u : String)
    (ht : ¬ t = "")
    (hs : generate_and_upload_tts (env.responses n) env.bucket env.region
      (ttsFileName n) = (str, TtsResult.url u))
    (hw : env.writeOk n = false) :
    processRows env tc (t :: rest) n tr =
      processRows env tc rest (n + 1)
        { tr with synthRows := tr.synthRows ++ [n],
                  uploads := tr.uploads ++ str.uploads,
                  sleeps := tr.sleeps ++ str.sleeps,
                  writeErrors := tr.writeErrors ++ [n] } := by
  simp [processRows, ht, hs, hw]

/-- If the synthesis of a row never raises an uncaught exception, the
row loop always runs to completion, invokes synthesis exactly for the
non-empty rows, skips exactly the empty rows, and only ever writes to
rows at or after its starting row number. -/
lemma processRows_no_exc (env : Env) (tc : Int)
    (hno : ∀ row e, (generate_and_upload_tts (env.responses row) env.bucket
      env.region (ttsFileName row)).2 ≠ TtsResult.exc e) :
    ∀ (texts : List String) (n : Nat) (tr : RunTrace),
      (processRows env tc texts n tr).2 = RunResult.completed ∧
      (processRows env tc texts n tr).1.synthRows
        = tr.synthRows ++ nonEmptyRows texts n ∧
      (processRows env tc texts n tr).1.skipped
        = tr.skipped ++ emptyRows texts n ∧
      ∀ x ∈ (processRows env tc texts n tr).1.writes,
        x ∈ tr.writes ∨ n ≤ x.1 := by
  intro texts
  induction texts with
  | nil =>
    intro n tr
    refine ⟨by simp [processRows_nil], by simp [processRows_nil, nonEmptyRows],
      by simp [processRows_nil, emptyRows], ?_⟩
    intro x hx
    exact Or.inl (by simpa [processRows_nil] using hx)
  | cons t rest ih =>
    intro n tr
    by_cases ht : t = ""
    · rw [processRows_empty_cell env tc t rest n tr ht]
      obtain ⟨h1, h2, h3, h4⟩ :=
        ih (n + 1) { tr with skipped := tr.skipped ++ [n] }
      refine ⟨h1, ?_, ?_, ?_⟩
      · rw [h2]; simp [nonEmptyRows, ht]
      · rw [h3]; simp [emptyRows, ht]
      · intro x hx
        rcases h4 x hx with hmem | hle
        · exact Or.inl hmem
        · exact Or.inr (Nat.le_of_succ_le hle)
    · rcases hres : generate_and_upload_tts (env.responses n) env.bucket
        env.region (ttsFileName n) with ⟨str, res⟩
      cases res with
      | exc e =>
        exact absurd (by rw [hres]) (hno n e)
      | failure =>
        rw [processRows_failure env tc t rest n tr str ht hres]
        obtain ⟨h1, h2, h3, h4⟩ := ih (n + 1) _
        refine ⟨h1, ?_, ?_, ?_⟩
        · rw [h2]; simp [nonEmptyRows, ht]
        · rw [h3]; simp [emptyRows, ht]
        · intro x hx
          rcases h4 x hx with hmem | hle
          · exact Or.inl hmem
          · exact Or.inr (Nat.le_of_succ_le hle)
      | url u =>
        cases hw : env.writeOk n with
        | true =>
          rw [processRows_url_write_ok env tc t rest n tr str u ht hres hw]
          obtain ⟨h1, h2, h3, h4⟩ := ih (n + 1) _
          refine ⟨h1, ?_, ?_, ?_⟩
          · rw [h2]; simp [nonEmptyRows, ht]
          · rw [h3]; simp [emptyRows, ht]
          · intro x hx
            rcases h4 x hx with hmem | hle
            · rcases List.mem_append.mp hmem with hm | hm
              · exact Or.inl hm
              · refine Or.inr ?_
                rcases List.mem_singleton.mp hm with rfl
                exact Nat.le_refl n
            · exact Or.inr (Nat.le_of_succ_le hle)
        | false =>
          rw [processRows_url_write_fails env tc t rest n tr str u ht hres hw]
          obtain ⟨h1, h2, h3, h4⟩ := ih (n + 1) _
          refine ⟨h1, ?_, ?_, ?_⟩
          · rw [h2]; simp [nonEmptyRows, ht]
          · rw [h3]; simp [emptyRows, ht]
          · intro x hx
            rcases h4 x hx with hmem | hle
            · exact Or.inl hmem
            · exact Or.inr (Nat.le_of_succ_le hle)

/-- Objects already uploaded to S3 are never removed by the rest of the
row loop: the loop's final upload trace extends the one it starts with. -/
lemma processRows_uploads_mono (env : Env) (tc : Int) :
    ∀ (texts : List String) (n : Nat) (tr : RunTrace),
      ∃ extra, (processRows env tc texts n tr).1.uploads = tr.uploads ++ extra := by
  intro texts
  induction texts with
  | nil =>
    intro n tr
    exact ⟨[], by simp [processRows_nil]⟩
  | cons t rest ih =>
    intro n tr
    by_cases ht : t = ""
    · rw [processRows_empty_cell env tc t rest n tr ht]
      obtain ⟨extra, hx⟩ := ih (n + 1) _
      exact ⟨extra, by rw [hx]⟩
    · rcases hres : generate_and_upload_tts (env.responses n) env.bucket
        env.region (ttsFileName n) with ⟨str, res⟩
      cases res with
      | exc e =>
        rw [processRows_exc env tc t rest n tr str e ht hres]
        exact ⟨str.uploads, rfl⟩
      | failure =>
        rw [processRows_failure env tc t rest n tr str ht hres]
        obtain ⟨extra, hx⟩ := ih (n + 1) _
        exact ⟨str.uploads ++ extra, by rw [hx]; simp⟩
      | url u =>
        cases hw : env.writeOk n with
        | true =>
          rw [processRows_url_write_ok env tc t rest n tr str u ht hres hw]
          obtain ⟨extra, hx⟩ := ih (n + 1) _
          exact ⟨str.uploads ++ extra, by rw [hx]; simp⟩
        | false =>
          rw [processRows_url_write_fails env tc t rest n tr str u ht hres hw]
          obtain ⟨extra, hx⟩ := ih (n + 1) _
          exact ⟨str.uploads ++ extra, by rw [hx]; simp⟩

/-- A URL outcome of the retry loop is always the S3 template applied to
the file name, and is always accompanied by exactly one new S3 upload
under that file name. -/
lemma ttsLoop_url_shape (resp : Nat → HttpResponse) (b r f : String) :
    ∀ (fuel a : Nat) (tr str : SynthTrace) (u : String),
      ttsLoop resp b r f a fuel tr = (str, TtsResult.url u) →
      u = s3Url b r f ∧ ∃ bytes, str.uploads = tr.uploads ++ [(f, bytes)] := by
  intro fuel
  induction fuel with
  | zero =>
    intro a tr str u h
    rw [ttsLoop_zero] at h
    exact absurd (congrArg Prod.snd h) (by simp)
  | succ fuel ih =>
    intro a tr str u h
    by_cases h200 : (resp a).status = 200
    · rw [ttsLoop_200 resp b r f a fuel tr h200] at h
      obtain ⟨h1, h2⟩ := Prod.mk.injEq .. ▸ h
      refine ⟨by injection h2 with h2; exact h2.symm, ⟨(resp a).content, ?_⟩⟩
      · rw [← h1]
    · by_cases h429 : (resp a).status = 429
      · rcases hx : extract_wait (resp a).errorMessage with e | ow
        · rw [ttsLoop_429_exc resp b r f a fuel tr e h429 hx] at h
          exact absurd (congrArg Prod.snd h) (by simp)
        · cases ow with
          | none =>
            rw [ttsLoop_429_unparseable resp b r f a fuel tr h429 hx] at h
            exact absurd (congrArg Prod.snd h) (by simp)
          | some w =>
            by_cases hw : w < 0
            · rw [ttsLoop_429_negative resp b r f a fuel tr w h429 hx hw] at h
              exact absurd (congrArg Prod.snd h) (by simp)
            · rw [ttsLoop_429_wait resp b r f a fuel tr w h429 hx hw] at h
              obtain ⟨h1, bytes, h2⟩ := ih (a + 1) _ str u h
              exact ⟨h1, bytes, by rw [h2]⟩
      · rw [ttsLoop_other resp b r f a fuel tr h200 h429] at h
        exact absurd (congrArg Prod.snd h) (by simp)

/-! Claim C2: column addressing. -/

/-- C2 counterexample: the claim says every non-letter input fails with
`InvalidColumnError` rather than returning an index, but
`column_letter_to_index` performs no letter check: the single non-letter
characters `"1"` and `"@"` return the ord-based indices `-15` and `0`
instead of failing. -/
theorem c2_counterexample :
    column_letter_to_index "1" = some (-15)
    ∧ column_letter_to_index "@" = some 0
    ∧ ¬ column_letter_to_index "1" = none := by
  refine ⟨by decide, by decide, by decide⟩

/-- C2 amended: every single-character input (letter or not) returns the
1-based index `ord(letter.upper()) - ord('A') + 1` — in particular every
single letter, upper- or lower-case, maps to A→1 … Z→26 — while empty or
multi-character input fails (Python `ord` raises `TypeError`, modelled as
`none`); there is no `InvalidColumnError` and no rejection of non-letter
single characters. -/
theorem c2_column_letter_to_index_amended (s : String) :
    (∀ c : Char, s.data = [c] →
      column_letter_to_index s = some (((pyUpperChar c).toNat : Int) - 65 + 1))
    ∧ (∀ c : Char, 'A' ≤ c → c ≤ 'Z' → s.data = [c] →
      column_letter_to_index s = some ((c.toNat : Int) - 65 + 1))
    ∧ (¬ s.data.length = 1 → column_letter_to_index s = none) := by
  refine ⟨?_, ?_, ?_⟩
  · intro c hc
    simp [column_letter_to_index, hc]
  · intro c h1 h2 hc
    have hup : pyUpperChar c = c := by
      have hnot : ¬ ('a' ≤ c ∧ c ≤ 'z') := by
        rintro ⟨ha, _⟩
        exact absurd (le_trans ha h2) (by decide)
      simp [pyUpperChar, hnot]
    simp [column_letter_to_index, hc, hup]
  · intro hlen
    rcases hl : s.data with _ | ⟨c, _ | ⟨d, rest⟩⟩
    · simp [column_letter_to_index, hl]
    · exact absurd (by rw [hl]; rfl) hlen
    · simp [column_letter_to_index, hl]

/-- C2 witness: the amended statement evaluated at `"b"`, `"Z"`, `""` and
`"AB"`. -/
theorem c2_witness :
    column_letter_to_index "b" = some 2
    ∧ column_letter_to_index "Z" = some 26
    ∧ column_letter_to_index "" = none
    ∧ column_letter_to_index "AB" = none :=
  ⟨(c2_column_letter_to_index_amended "b").1 'b' rfl,
    (c2_column_letter_to_index_amended "Z").2.1 'Z' (by decide) (by decide) rfl,
    (c2_column_letter_to_index_amended "").2.2 (by decide),
    (c2_column_letter_to_index_amended "AB").2.2 (by decide)⟩

/-! Claim C3: sheet reference resolution. -/

/-- C3 counterexample: the claim says a sheet reference URL containing
`?id=XYZ` resolves to `XYZ`, but the app passes the entered reference
verbatim to `open_by_key` with no query-parameter extraction at all. -/
theorem c3_counterexample :
    ¬ resolve_sheet_reference "https://docs.google.com/spreadsheets/d?id=XYZ"
      = "XYZ" := by
  decide

/-- C3 amended: reference resolution is the identity — the entered
reference, URL or not, is used verbatim as the spreadsheet key, no `id`
query parameter is ever extracted, and there is no `InvalidReferenceError`:
when the backend cannot open a sheet under the full entered string the run
aborts with the `open_by_key` exception before any row is processed. -/
theorem c3_resolution_amended (env : Env) (ref srcL tgtL : String)
    (sc tc : Int)
    (hs : column_letter_to_index srcL = some sc)
    (ht : column_letter_to_index tgtL = some tc)
    (hopen : env.openSheet ref = none) :
    resolve_sheet_reference ref = ref
    ∧ process_google_sheet env ref srcL tgtL
      = (emptyTrace, RunResult.aborted PyExc.apiError 0) := by
  refine ⟨rfl, ?_⟩
  simp [process_google_sheet, hs, ht, hopen]

/-- C3 witness: the amended statement evaluated on a world with no
openable sheet and the reference URL `https://docs.google.com/d?id=XYZ`. -/
theorem c3_witness :
    resolve_sheet_reference "https://docs.google.com/d?id=XYZ"
      = "https://docs.google.com/d?id=XYZ"
    ∧ process_google_sheet envNoSheet "https://docs.google.com/d?id=XYZ" "A" "D"
      = (emptyTrace, RunResult.aborted PyExc.apiError 0) :=
  c3_resolution_amended envNoSheet "https://docs.google.com/d?id=XYZ" "A" "D"
    1 4 rfl rfl rfl

/-! Claim C8: deterministic object key and URL template. -/

/-- C8: for every row number `N` the object key is exactly the string
`tts_audio_row{N}.mp3` — a pure function of the row number, so two runs
over the same sheet use identical keys per row and `put_object`
overwrites rather than accumulates — and on a 200 response the returned
URL is exactly `https://{bucket}.s3.{region}.amazonaws.com/{key}` applied
to that key, with exactly that key uploaded. -/
theorem c8_deterministic_key_and_url (n : Nat) (b r : String)
    (resp : Nat → HttpResponse) (h : (resp 0).status = 200) :
    ttsFileName n = "tts_audio_row" ++ toString n ++ ".mp3"
    ∧ generate_and_upload_tts resp b r (ttsFileName n) =
      ({ httpCalls := 1, sleeps := [],
          uploads := [(ttsFileName n, (resp 0).content)] },
        TtsResult.url (s3Url b r (ttsFileName n)))
    ∧ s3Url b r (ttsFileName n)
      = "https://" ++ b ++ ".s3." ++ r ++ ".amazonaws.com/" ++ ttsFileName n := by
  refine ⟨rfl, ?_, rfl⟩
  unfold generate_and_upload_tts
  rw [show max_retries = 4 + 1 from rfl,
    ttsLoop_200 resp b r (ttsFileName n) 0 4 ⟨0, [], []⟩ h]
  simp

/-- C8 witness: row 2 with a 200 response carrying audio bytes `[7]`. -/
theorem c8_witness :
    generate_and_upload_tts (fun _ => ⟨200, [7], ""⟩) "bkt" "reg" (ttsFileName 2)
      = ({ httpCalls := 1, sleeps := [], uploads := [(ttsFileName 2, [7])] },
          TtsResult.url (s3Url "bkt" "reg" (ttsFileName 2))) :=
  (c8_deterministic_key_and_url 2 "bkt" "reg" (fun _ => ⟨200, [7], ""⟩) rfl).2.1

/-! Claim C5: non-200, non-429 response aborts the row with no retry. -/

/-- C5: when the first synthesis response has a status that is neither
200 nor 429 (e.g. 500), the attempt ends at once with the failure marker
after exactly one HTTP call — zero retries, no sleep, no upload — and the
row loop moves on to the next row. -/
theorem c5_api_error_no_retry (resp : Nat → HttpResponse)
    (h200 : ¬ (resp 0).status = 200) (h429 : ¬ (resp 0).status = 429)
    (b r : String) :
    (∀ f, generate_and_upload_tts resp b r f =
      ({ httpCalls := 1, sleeps := [], uploads := [] }, TtsResult.failure))
    ∧ ∀ (env : Env) (tc : Int) (t : String) (rest : List String) (n : Nat)
        (tr : RunTrace),
        env.responses n = resp → env.bucket = b → env.region = r → ¬ t = "" →
        processRows env tc (t :: rest) n tr =
          processRows env tc rest (n + 1)
            { tr with synthRows := tr.synthRows ++ [n] } := by
  have key : ∀ f, generate_and_upload_tts resp b r f =
      ({ httpCalls := 1, sleeps := [], uploads := [] }, TtsResult.failure) := by
    intro f
    unfold generate_and_upload_tts
    rw [show max_retries = 4 + 1 from rfl,
      ttsLoop_other resp b r f 0 4 ⟨0, [], []⟩ h200 h429]
  refine ⟨key, ?_⟩
  intro env tc t rest n tr hresp hb hr ht
  have hgen : generate_and_upload_tts (env.responses n) env.bucket env.region
      (ttsFileName n)
      = ({ httpCalls := 1, sleeps := [], uploads := [] }, TtsResult.failure) := by
    rw [hresp, hb, hr]; exact key _
  rw [processRows_failure env tc t rest n tr _ ht hgen]
  simp

/-- C5 witness: a 500 response on a row followed by another row. -/
theorem c5_witness :
    generate_and_upload_tts (fun _ => ⟨500, [], "boom"⟩) "bkt" "reg" "f.mp3"
      = ({ httpCalls := 1, sleeps := [], uploads := [] }, TtsResult.failure) :=
  (c5_api_error_no_retry (fun _ => ⟨500, [], "boom"⟩) (by decide) (by decide)
    "bkt" "reg").1 "f.mp3"

/-! Claim C1: 429 with a parseable wait time sleeps and retries,
exhausting after 5 attempts. -/

/-- C1: when every attempt is answered 429 with a message whose
second-to-last space-separated token parses as a non-negative wait time,
the client sleeps exactly that wait after each response and retries,
making `max_retries = 5` HTTP calls in all, then returns the failure
marker (no URL, nothing uploaded); the row loop records the failure and
continues with the next row. -/
theorem c1_rate_limit_retry (resp : Nat → HttpResponse) (w : Nat → Int)
    (h429 : ∀ i, i < max_retries → (resp i).status = 429)
    (hx : ∀ i, i < max_retries →
      extract_wait (resp i).errorMessage = Except.ok (some (w i)))
    (hnn : ∀ i, i < max_retries → 0 ≤ w i)
    (b r : String) :
    (∀ f, generate_and_upload_tts resp b r f =
      ({ httpCalls := 5, sleeps := [w 0, w 1, w 2, w 3, w 4], uploads := [] },
        TtsResult.failure))
    ∧ ∀ (env : Env) (tc : Int) (t : String) (rest : List String) (n : Nat)
        (tr : RunTrace),
        env.responses n = resp → env.bucket = b → env.region = r → ¬ t = "" →
        processRows env tc (t :: rest) n tr =
          processRows env tc rest (n + 1)
            { tr with synthRows := tr.synthRows ++ [n],
                      sleeps := tr.sleeps ++ [w 0, w 1, w 2, w 3, w 4] } := by
  have key : ∀ f, generate_and_upload_tts resp b r f =
      ({ httpCalls := 5, sleeps := [w 0, w 1, w 2, w 3, w 4], uploads := [] },
        TtsResult.failure) := by
    intro f
    unfold generate_and_upload_tts
    rw [show max_retries = 4 + 1 from rfl,
      ttsLoop_429_wait resp b r f 0 4 _ (w 0) (h429 0 (by decide))
        (hx 0 (by decide)) (not_lt.mpr (hnn 0 (by decide)))]
    rw [show (4 : Nat) = 3 + 1 from rfl,
      ttsLoop_429_wait resp b r f 1 3 _ (w 1) (h429 1 (by decide))
        (hx 1 (by decide)) (not_lt.mpr (hnn 1 (by decide)))]
    rw [show (3 : Nat) = 2 + 1 from rfl,
      ttsLoop_429_wait resp b r f 2 2 _ (w 2) (h429 2 (by decide))
        (hx 2 (by decide)) (not_lt.mpr (hnn 2 (by decide)))]
    rw [show (2 : Nat) = 1 + 1 from rfl,
      ttsLoop_429_wait resp b r f 3 1 _ (w 3) (h429 3 (by decide))
        (hx 3 (by decide)) (not_lt.mpr (hnn 3 (by decide)))]
    rw [show (1 : Nat) = 0 + 1 from rfl,
      ttsLoop_429_wait resp b r f 4 0 _ (w 4) (h429 4 (by decide))
        (hx 4 (by decide)) (not_lt.mpr (hnn 4 (by decide)))]
    rw [ttsLoop_zero]
    simp
  refine ⟨key, ?_⟩
  intro env tc t rest n tr hresp hb hr ht
  have hgen : generate_and_upload_tts (env.responses n) env.bucket env.region
      (ttsFileName n)
      = ({ httpCalls := 5, sleeps := [w 0, w 1, w 2, w 3, w 4], uploads := [] },
          TtsResult.failure) := by
    rw [hresp, hb, hr]; exact key _
  rw [processRows_failure env tc t rest n tr _ ht hgen]
  simp

/-- C1 witness: five consecutive 429 responses carrying
"Retrying in 3 seconds" make the client sleep 3 five times and give up
with no URL. -/
theorem c1_witness :
    generate_and_upload_tts resp429 "bkt" "reg" "f.mp3"
      = ({ httpCalls := 5, sleeps := [3, 3, 3, 3, 3], uploads := [] },
          TtsResult.failure) :=
  (c1_rate_limit_retry resp429 (fun _ => 3) (fun _ _ => rfl)
    (fun i _ => by
      show extract_wait "Retrying in 3 seconds" = Except.ok (some 3); rfl)
    (fun i _ => by show (0 : Int) ≤ 3; decide)
    "bkt" "reg").1 "f.mp3"

/-! Claim C10: a 429 message with fewer than two space-separated tokens
raises an uncaught IndexError that kills the whole run. -/

/-- C10: when a row's synthesis gets a 429 whose message splits on single
spaces into fewer than two tokens, `error_message.split(" ")[-2]` raises
`IndexError`; only `ValueError` is caught, so the exception escapes
`generate_and_upload_tts` after exactly one HTTP call and, since the row
loop has no handler around the synthesis call, aborts the entire run at
that row instead of failing only that row. -/
theorem c10_short_429_message_uncaught (msg : String)
    (hm : (pySplitSpace msg).length < 2)
    (resp : Nat → HttpResponse)
    (h429 : (resp 0).status = 429)
    (hmsg : (resp 0).errorMessage = msg)
    (b r : String) :
    (∀ f, generate_and_upload_tts resp b r f =
      ({ httpCalls := 1, sleeps := [], uploads := [] },
        TtsResult.exc PyExc.indexError))
    ∧ ∀ (env : Env) (tc : Int) (t : String) (rest : List String) (n : Nat)
        (tr : RunTrace),
        env.responses n = resp → env.bucket = b → env.region = r → ¬ t = "" →
        processRows env tc (t :: rest) n tr =
          ({ tr with synthRows := tr.synthRows ++ [n] },
            RunResult.aborted PyExc.indexError n) := by
  have hx : extract_wait (resp 0).errorMessage
      = Except.error PyExc.indexError := by
    rw [hmsg]
    have hnotle : ¬ 2 ≤ (pySplitSpace msg).length := by omega
    simp [extract_wait, hnotle]
  have key : ∀ f, generate_and_upload_tts resp b r f =
      ({ httpCalls := 1, sleeps := [], uploads := [] },
        TtsResult.exc PyExc.indexError) := by
    intro f
    unfold generate_and_upload_tts
    rw [show max_retries = 4 + 1 from rfl,
      ttsLoop_429_exc resp b r f 0 4 ⟨0, [], []⟩ PyExc.indexError h429 hx]
  refine ⟨key, ?_⟩
  intro env tc t rest n tr hresp hb hr ht
  have hgen : generate_and_upload_tts (env.responses n) env.bucket env.region
      (ttsFileName n)
      = ({ httpCalls := 1, sleeps := [], uploads := [] },
          TtsResult.exc PyExc.indexError) := by
    rw [hresp, hb, hr]; exact key _
  rw [processRows_exc env tc t rest n tr _ PyExc.indexError ht hgen]
  simp

/-- C10 witness: a 429 with the empty message aborts after one call. -/
theorem c10_witness :
    generate_and_upload_tts (fun _ => ⟨429, [], ""⟩) "bkt" "reg"
      "tts_audio_row9.mp3"
      = ({ httpCalls := 1, sleeps := [], uploads := [] },
          TtsResult.exc PyExc.indexError) :=
  (c10_short_429_message_uncaught "" (by decide) (fun _ => ⟨429, [], ""⟩)
    rfl rfl "bkt" "reg").1 "tts_audio_row9.mp3"

/-! Claim C6: the code contradicts the intended row-only parse failure. -/

/-- C6 (code bug witnessed): the claim — and the code's own comment
"safely extract the wait time" with its `except ValueError` guard —
intend a 429 with an unextractable wait to be a non-retryable failure
fatal to that row only.  That holds for a message of ≥ 2 tokens with a
non-numeric token (the `ValueError` path, last conjunct), but for a 429
whose message splits into fewer than two tokens (here: the empty
message) the extraction raises `IndexError`, which `except ValueError`
does not catch, so the run of `env6` aborts at row 2 instead of moving
on to row 3. -/
theorem c6_unparseable_429_crashes_run :
    extract_wait "" = Except.error PyExc.indexError
    ∧ (generate_and_upload_tts (fun _ => ⟨429, [], ""⟩) "bkt" "reg"
        "tts_audio_row2.mp3").2 = TtsResult.exc PyExc.indexError
    ∧ process_google_sheet env6 "sheet1" "A" "B"
      = ({ synthRows := [2], skipped := [], writes := [], uploads := [],
            writeErrors := [], sleeps := [] },
          RunResult.aborted PyExc.indexError 2)
    ∧ generate_and_upload_tts (fun _ => ⟨429, [], "please retry later"⟩)
        "bkt" "reg" "f.mp3"
      = ({ httpCalls := 1, sleeps := [], uploads := [] }, TtsResult.failure) := by
  refine ⟨rfl, rfl, rfl, rfl⟩

/-! Claim C7: per-row failure isolation. -/

/-- C7 counterexample: the claim says any failure while processing a row
leaves the run in progress and the loop proceeds to the next row.  In
`env7`, row 2's synthesis fails (429 with an empty message) while rows
after it would succeed with 200 — yet the run aborts at row 2 with the
uncaught `IndexError`: row 3 is never attempted (`synthRows = [2]`), so
a mid-run row failure can kill the whole run. -/
theorem c7_counterexample :
    process_google_sheet env7 "sheet" "A" "B"
      = ({ synthRows := [2], skipped := [], writes := [], uploads := [],
            writeErrors := [], sleeps := [] },
          RunResult.aborted PyExc.indexError 2) := by
  rfl

/-- C7 amended: failures the code itself reports — non-200/non-429
statuses, exhausted retries, caught `ValueError` wait-time parses, and
write-back exceptions — are isolated to their row: whenever no row's
synthesis raises an uncaught exception the run completes, however many
rows fail; and a failure to open the sheet still aborts the run before
any row is processed.  But a 429 whose message splits into fewer than two
tokens raises an uncaught `IndexError` that aborts the whole run mid-row
(see the counterexample and C10). -/
theorem c7_row_failures_isolated (env : Env) (id srcL tgtL : String)
    (sc tc : Int)
    (hs : column_letter_to_index srcL = some sc)
    (ht : column_letter_to_index tgtL = some tc)
    (hno : ∀ row e, (generate_and_upload_tts (env.responses row) env.bucket
      env.region (ttsFileName row)).2 ≠ TtsResult.exc e) :
    (∀ cols, env.openSheet id = some cols →
      (process_google_sheet env id srcL tgtL).2 = RunResult.completed)
    ∧ (env.openSheet id = none →
      process_google_sheet env id srcL tgtL
        = (emptyTrace, RunResult.aborted PyExc.apiError 0)) := by
  constructor
  · intro cols hopen
    have hp : process_google_sheet env id srcL tgtL
        = processRows env tc ((cols sc).drop 1) 2 emptyTrace := by
      simp [process_google_sheet, hs, ht, hopen]
    rw [hp]
    exact (processRows_no_exc env tc hno ((cols sc).drop 1) 2 emptyTrace).1
  · intro hopen
    simp [process_google_sheet, hs, ht, hopen]

/-- C7 witness: in `env7w` every row's synthesis fails with 500 and every
write-back would raise, yet the run completes. -/
theorem c7_witness :
    (process_google_sheet env7w "sheet" "A" "B").2 = RunResult.completed := by
  have hgen : ∀ row, generate_and_upload_tts (env7w.responses row)
      env7w.bucket env7w.region (ttsFileName row)
      = ({ httpCalls := 1, sleeps := [], uploads := [] }, TtsResult.failure) := by
    intro row
    unfold generate_and_upload_tts
    rw [show max_retries = 4 + 1 from rfl,
      ttsLoop_other _ _ _ _ 0 4 ⟨0, [], []⟩
        (by show ¬ (500 : Nat) = 200; decide)
        (by show ¬ (500 : Nat) = 429; decide)]
  exact (c7_row_failures_isolated env7w "sheet" "A" "B" 1 2 rfl rfl
    (fun row e => by rw [hgen row]; simp)).1
    (fun _ => ["hdr", "x", "y"]) rfl

/-! Claim C4: which rows are synthesized, skipped, and written. -/

/-- C4: over a source column reading `[header, "hello", "", "world",
"foo"]`, as long as no synthesis raises an uncaught exception, the
pipeline invokes synthesis exactly for rows 2, 4, 5 (in that order),
skips row 3 with the empty-cell warning and never synthesizes it, never
processes row 1 (the header is dropped before the loop and absent from
`synthRows` and `skipped`), never writes to any row below 2, and the run
completes. -/
theorem c4_rows_attempted_and_skipped (env : Env) (id srcL tgtL : String)
    (sc tc : Int) (hdr : String) (cols : Int → List String)
    (hs : column_letter_to_index srcL = some sc)
    (ht : column_letter_to_index tgtL = some tc)
    (hopen : env.openSheet id = some cols)
    (hcol : cols sc = [hdr, "hello", "", "world", "foo"])
    (hno : ∀ row e, (generate_and_upload_tts (env.responses row) env.bucket
      env.region (ttsFileName row)).2 ≠ TtsResult.exc e) :
    (process_google_sheet env id srcL tgtL).1.synthRows = [2, 4, 5]
    ∧ (process_google_sheet env id srcL tgtL).1.skipped = [3]
    ∧ (∀ x ∈ (process_google_sheet env id srcL tgtL).1.writes, 2 ≤ x.1)
    ∧ (process_google_sheet env id srcL tgtL).2 = RunResult.completed := by
  have hp : process_google_sheet env id srcL tgtL
      = processRows env tc ["hello", "", "world", "foo"] 2 emptyTrace := by
    simp [process_google_sheet, hs, ht, hopen, hcol]
  obtain ⟨h1, h2, h3, h4⟩ :=
    processRows_no_exc env tc hno ["hello", "", "world", "foo"] 2 emptyTrace
  rw [hp]
  refine ⟨?_, ?_, ?_, h1⟩
  · rw [h2]; decide
  · rw [h3]; decide
  · intro x hx
    rcases h4 x hx with hmem | hle
    · exact absurd hmem (by simp [emptyTrace])
    · exact hle

/-- C4 witness: the scenario run in `env4`, where synthesis always
succeeds. -/
theorem c4_witness :
    (process_google_sheet env4 "sheet" "A" "D").1.synthRows = [2, 4, 5]
    ∧ (process_google_sheet env4 "sheet" "A" "D").1.skipped = [3]
    ∧ (∀ x ∈ (process_google_sheet env4 "sheet" "A" "D").1.writes, 2 ≤ x.1)
    ∧ (process_google_sheet env4 "sheet" "A" "D").2 = RunResult.completed := by
  refine c4_rows_attempted_and_skipped env4 "sheet" "A" "D" 1 4 "hdr"
    (fun _ => ["hdr", "hello", "", "world", "foo"]) rfl rfl rfl rfl ?_
  intro row e
  unfold generate_and_upload_tts
  rw [show max_retries = 4 + 1 from rfl,
    ttsLoop_200 _ _ _ _ 0 4 ⟨0, [], []⟩ (by show (200 : Nat) = 200; rfl)]
  simp

/-! Claim C9: a failed write-back is row-local and leaves the uploaded
object in place. -/

/-- C9: when a row's synthesis succeeds (so the audio has already been
uploaded under that row's key) but the write-back of the URL raises, the
exception is caught: the loop records the write error, performs no cell
write for that row, continues with the next row, and the uploaded object
stays in the S3 trace to the end of the run — nothing deletes it. -/
theorem c9_write_failure_keeps_object (env : Env) (tc : Int) (t : String)
    (rest : List String) (n : Nat) (str : SynthTrace) (u : String)
    (ht : ¬ t = "")
    (hsyn : generate_and_upload_tts (env.responses n) env.bucket env.region
      (ttsFileName n) = (str, TtsResult.url u))
    (hw : env.writeOk n = false) :
    processRows env tc (t :: rest) n emptyTrace =
      processRows env tc rest (n + 1)
        { synthRows := [n], skipped := [], writes := [],
          uploads := str.uploads, writeErrors := [n], sleeps := str.sleeps }
    ∧ ∃ bytes extra,
        (processRows env tc (t :: rest) n emptyTrace).1.uploads
          = (ttsFileName n, bytes) :: extra := by
  have hstep : processRows env tc (t :: rest) n emptyTrace =
      processRows env tc rest (n + 1)
        { synthRows := [n], skipped := [], writes := [],
          uploads := str.uploads, writeErrors := [n], sleeps := str.sleeps } := by
    rw [processRows_url_write_fails env tc t rest n emptyTrace str u ht hsyn hw]
    simp [emptyTrace]
  refine ⟨hstep, ?_⟩
  obtain ⟨-, bytes, hb⟩ := ttsLoop_url_shape (env.responses n) env.bucket
    env.region (ttsFileName n) max_retries 0 ⟨0, [], []⟩ str u hsyn
  obtain ⟨extra, hex⟩ := processRows_uploads_mono env tc rest (n + 1)
    { synthRows := [n], skipped := [], writes := [],
      uploads := str.uploads, writeErrors := [n], sleeps := str.sleeps }
  refine ⟨bytes, extra, ?_⟩
  rw [hstep, hex]
  simp at hb
  simp [hb]

/-- C9 witness: in `env9` synthesis of row 2 succeeds with audio `[9]`
and the write-back raises; the loop moves on and the object stays. -/
theorem c9_witness :
    processRows env9 2 ["x"] 2 emptyTrace =
      processRows env9 2 [] 3
        { synthRows := [2], skipped := [], writes := [],
          uploads := [(ttsFileName 2, [9])], writeErrors := [2], sleeps := [] }
    ∧ ∃ bytes extra,
        (processRows env9 2 ["x"] 2 emptyTrace).1.uploads
          = (ttsFileName 2, bytes) :: extra :=
  c9_write_failure_keeps_object env9 2 "x" [] 2
    ⟨1, [], [(ttsFileName 2, [9])]⟩ (s3Url "bkt" "reg" (ttsFileName 2))
    (by decide) rfl rfl

end AudioUploader
